import Mathlib

/-!
Shallow embedding of the ProLink serverless handlers (profile upsert and public
projection, post-confirmation account reconciliation, link soft-delete) together
with theorems checking the natural-language specification against the code.

Source files embedded:
  - terraform/modules/lambda/profiles/main.py
  - terraform/modules/lambda/post-confirmation/main.py
  - terraform/modules/lambda/links/main.py

DynamoDB tables are modelled as association lists keyed the way the tables are
keyed (profiles by `username`, users by `user_id`, links by `(user_id, link_id)`);
`put_item` replaces the item with the same key, mirroring DynamoDB semantics on
a table whose keys are unique.  Attributes the Python code reads with
`dict.get(k, default)` and never distinguishes from their default are modelled
as plain fields with that default; attributes whose *presence* the code tests
(`k in item`, `item.get(k)` against `None`) are modelled as `Option` fields.
The S3 presigned-URL capability is an explicit function parameter
`presign : String -> Option String` (`none` models a failed generation), and
store failures are injected through explicit failure-plan parameters carrying
the error detail string, mirroring the `ClientError` branches.
-/

/-- Python string truthiness fallback: `a or b` on strings (empty string is falsy). -/
def pyOrS (a b : String) : String := if a = "" then b else a

/-- Python `d.get(k, '')` on an optional string attribute. -/
def pyStr (o : Option String) : String := o.getD ""

/-- Python whitespace for `str.strip()`. -/
def isSpaceChar (c : Char) : Bool :=
  c == ' ' || c == '\t' || c == '\n' || c == '\r' || c == '\x0b' || c == '\x0c'

/-- Python `s.strip()`: drop leading and trailing whitespace. -/
def pyStrip (s : String) : String :=
  String.mk (((s.toList.dropWhile isSpaceChar).reverse.dropWhile isSpaceChar).reverse)

/-- Python `s.lower()` on the ASCII range. -/
def pyLower (s : String) : String := String.mk (s.toList.map Char.toLower)

/-- Python `s[:n]`. -/
def pyTake (s : String) (n : Nat) : String := String.mk (s.toList.take n)

/-- Python `s.startswith(pat)`. -/
def pyStartsWith (s pat : String) : Bool := pat.toList.isPrefixOf s.toList

/-- `pat` occurs as a contiguous run inside `l`. -/
def containsChars (pat : List Char) : List Char → Bool
  | [] => pat.isEmpty
  | c :: rest => pat.isPrefixOf (c :: rest) || containsChars pat rest

/-- Python `pat in s` substring test. -/
def containsSub (s pat : String) : Bool := containsChars pat.toList s.toList

/-- The segment of `l` before the first occurrence of `sep` (all of `l` when
`sep` does not occur): the first piece of Python `split`. -/
def beforeFirst (sep : List Char) : List Char → List Char
  | [] => []
  | c :: rest => if sep.isPrefixOf (c :: rest) then [] else c :: beforeFirst sep rest

/-- The remainder of `l` after the first occurrence of `sep`, `none` when `sep`
does not occur. -/
def afterFirst (sep : List Char) : List Char → Option (List Char)
  | [] => none
  | c :: rest =>
    if sep.isPrefixOf (c :: rest) then some ((c :: rest).drop sep.length)
    else afterFirst sep rest

/-- Python `s.split(sep)[0]`. -/
def splitPart0 (s sep : String) : String := String.mk (beforeFirst sep.toList s.toList)

/-- Python `s.split(sep)[1]` guarded by `len(parts) > 1`: the segment between
the first occurrence of `sep` and the following one (or the end), or `none`
when `sep` does not occur at all. -/
def splitPart1 (s sep : String) : Option String :=
  (afterFirst sep.toList s.toList).map (fun rest => String.mk (beforeFirst sep.toList rest))

/-- One character of the handle character class `[a-z0-9_-]`. -/
def isHandleChar (c : Char) : Bool :=
  (decide ('a' ≤ c) && decide (c ≤ 'z')) || (decide ('0' ≤ c) && decide (c ≤ '9'))
    || c == '_' || c == '-'

/-- `re.match(r'^[a-z0-9_-]{3,20}$', s)`: 3 to 20 characters, all from the class. -/
def isHandleFormat (s : String) : Bool :=
  decide (3 ≤ s.length) && decide (s.length ≤ 20) && s.toList.all isHandleChar

/-- `re.sub(r'[^a-z0-9_-]', '', s)`: drop every character outside the class. -/
def sanitizeChars (s : String) : String := String.mk (s.toList.filter isHandleChar)

/-- A user record in the users table (keyed by `user_id`).  `fullname`,
`cognito_user_ids`, `picture`, `date_of_birth` and `created_at` are attributes
whose presence the code inspects, hence `Option`. -/
structure UserRecord where
  user_id : String
  email : String := ""
  fullname : Option String := none
  username : String := ""
  date_of_birth : Option String := none
  profile_complete : Bool := false
  cognito_user_ids : Option (List String) := none
  picture : Option String := none
  created_at : Option String := none
  updated_at : String := ""
deriving DecidableEq

/-- A profile record in the profiles table (keyed by `username`).  Fields read
only through `get` with a default are plain; fields whose key-presence the code
tests (`favorite_color`, `resume_key`, `resume_url`, `resumeUrl`,
`date_of_birth`, `created_at`) are `Option`. -/
structure StoredProfile where
  username : String
  user_id : String
  full_name : String := ""
  title : String := ""
  bio : String := ""
  skills : List String := []
  social_links : List (String × String) := []
  projects : List (List (String × String)) := []
  avatar_key : String := ""
  avatar_url : String := ""
  profile_image_url : String := ""
  email : String := ""
  phone : String := ""
  show_email : Bool := false
  show_phone : Bool := false
  show_resume : Bool := false
  favorite_color : Option String := none
  resume_key : Option String := none
  resume_url : Option String := none
  resumeUrl : Option String := none
  date_of_birth : Option String := none
  picture : Option String := none
  created_at : Option String := none
  updated_at : String := ""
deriving DecidableEq

/-- A link record in the links table (keyed by `(user_id, link_id)`). -/
structure Link where
  user_id : String
  link_id : String
  title : String := ""
  url : String := ""
  order : Int := 0
  is_deleted : Bool := false
  created_at : Option String := none
  updated_at : String := ""
deriving DecidableEq

/-- The public projection returned by `GET /profiles/\x7busername\x7d`.  `email`,
`phone` and `resume_key` are `Option` because the handler conditionally adds
those keys to the response dict. -/
structure PublicProfile where
  username : String
  full_name : String := ""
  title : String := ""
  bio : String := ""
  skills : List String := []
  social_links : List (String × String) := []
  projects : List (List (String × String)) := []
  profile_image_url : String := ""
  avatar_url : String := ""
  links : List (String × String) := []
  resume_url : String := ""
  show_email : Bool := false
  show_phone : Bool := false
  show_resume : Bool := false
  favorite_color : String := ""
  email : Option String := none
  phone : Option String := none
  resume_key : Option String := none
deriving DecidableEq

/-- JSON response bodies produced by the handlers, one constructor per shape. -/
inductive RespBody where
  | err (error : String) (message : Option String)
  | msg (message : String)
  | profileSaved (message : String) (profile : StoredProfile)
  | publicProfile (p : PublicProfile)
  | availability (available : Bool) (username : String)
  | invalidUsername (available : Bool) (error : String)
  | userNotFound
  | userMe (user_id : String) (username : String) (email : String)
      (profile_complete : Bool) (date_of_birth : Option String) (fullname : Option String)
deriving DecidableEq

/-- An HTTP response: status code and JSON body (headers are CORS plumbing,
out of the specified core). -/
structure HttpResponse where
  status : Nat
  body : RespBody
deriving DecidableEq

/-- `profiles_table.get_item(Key=\x7b'username': u\x7d)`. -/
def getProfile (ps : List StoredProfile) (u : String) : Option StoredProfile :=
  ps.find? (fun p => p.username == u)

/-- `profiles_table.put_item(Item=p)`: replace the item with the same key, else append. -/
def putProfile : List StoredProfile → StoredProfile → List StoredProfile
  | [], p => [p]
  | q :: qs, p => if q.username == p.username then p :: qs else q :: putProfile qs p

/-- `users_table.get_item(Key=\x7b'user_id': uid\x7d)`. -/
def getUser (us : List UserRecord) (uid : String) : Option UserRecord :=
  us.find? (fun u => u.user_id == uid)

/-- `users_table.put_item(Item=u)`: replace the item with the same key, else append. -/
def putUser : List UserRecord → UserRecord → List UserRecord
  | [], u => [u]
  | v :: vs, u => if v.user_id == u.user_id then u :: vs else v :: putUser vs u

/-- `users_table.update_item` on key `uid`: apply the update to the keyed item. -/
def updateUser (us : List UserRecord) (uid : String) (f : UserRecord → UserRecord) :
    List UserRecord :=
  us.map (fun u => if u.user_id == uid then f u else u)

/-- `links_table.get_item(Key=\x7b'user_id': uid, 'link_id': lid\x7d)`. -/
def findLink (ls : List Link) (uid lid : String) : Option Link :=
  ls.find? (fun l => l.user_id == uid && l.link_id == lid)

theorem getProfile_putProfile (ps : List StoredProfile) (p : StoredProfile) :
    getProfile (putProfile ps p) p.username = some p := by
  induction ps with
  | nil => simp [getProfile, putProfile]
  | cons q qs ih =>
    by_cases h : q.username = p.username
    · simp [getProfile, putProfile, h]
    · have hstep : putProfile (q :: qs) p = q :: putProfile qs p := by
        simp [putProfile, h]
      rw [hstep]
      unfold getProfile
      rw [List.find?_cons_of_neg _ (by simp [h])]
      exact ih

theorem getUser_putUser (us : List UserRecord) (u : UserRecord) :
    getUser (putUser us u) u.user_id = some u := by
  induction us with
  | nil => simp [getUser, putUser]
  | cons v vs ih =>
    by_cases h : v.user_id = u.user_id
    · simp [getUser, putUser, h]
    · have hstep : putUser (v :: vs) u = v :: putUser vs u := by
        simp [putUser, h]
      rw [hstep]
      unfold getUser
      rw [List.find?_cons_of_neg _ (by simp [h])]
      exact ih

theorem getUser_putUser_ne (us : List UserRecord) (u : UserRecord) (uid : String)
    (h : uid ≠ u.user_id) : getUser (putUser us u) uid = getUser us uid := by
  have hne : ¬ (u.user_id = uid) := fun hh => h hh.symm
  induction us with
  | nil => simp [getUser, putUser, hne]
  | cons v vs ih =>
    by_cases hv : v.user_id = u.user_id
    · have hstep : putUser (v :: vs) u = u :: vs := by
        simp [putUser, hv]
      rw [hstep]
      unfold getUser
      rw [List.find?_cons_of_neg _ (by simp [hne]),
        List.find?_cons_of_neg _ (by simp [hv, hne])]
    · have hstep : putUser (v :: vs) u = v :: putUser vs u := by
        simp [putUser, hv]
      rw [hstep]
      by_cases hu : v.user_id = uid
      · simp [getUser, List.find?_cons_of_pos, hu]
      · unfold getUser
        rw [List.find?_cons_of_neg _ (by simp [hu]),
          List.find?_cons_of_neg _ (by simp [hu])]
        exact ih

/-- One insertion step of Python `sorted(..., key=lambda x: x.get('order', 0))`
restricted to its extension: place `x` before the first element whose `order`
is not smaller, so earlier input elements with equal `order` stay first. -/
def insertLink (x : Link) : List Link → List Link
  | [] => [x]
  | y :: ys => if y.order < x.order then y :: insertLink x ys else x :: y :: ys

/-- Python `sorted(items, key=lambda x: x.get('order', 0))`: stable ascending
sort by the `order` attribute. -/
def sortLinks : List Link → List Link
  | [] => []
  | x :: xs => insertLink x (sortLinks xs)

theorem mem_insertLink (x : Link) (l : List Link) (a : Link) :
    a ∈ insertLink x l ↔ a = x ∨ a ∈ l := by
  induction l with
  | nil => simp [insertLink]
  | cons y ys ih =>
    by_cases h : y.order < x.order
    · simp only [insertLink, if_pos h, List.mem_cons, ih]
      tauto
    · simp only [insertLink, if_neg h, List.mem_cons]

theorem perm_insertLink (x : Link) (l : List Link) : (insertLink x l).Perm (x :: l) := by
  induction l with
  | nil => simp [insertLink]
  | cons y ys ih =>
    by_cases h : y.order < x.order
    · simp only [insertLink, if_pos h]
      exact (List.Perm.cons y ih).trans (List.Perm.swap x y ys)
    · simp [insertLink, if_neg h]

theorem perm_sortLinks (l : List Link) : (sortLinks l).Perm l := by
  induction l with
  | nil => simp [sortLinks]
  | cons x xs ih =>
    exact (perm_insertLink x (sortLinks xs)).trans (List.Perm.cons x ih)

theorem pairwise_insertLink (x : Link) (l : List Link)
    (h : l.Pairwise (fun a b => a.order ≤ b.order)) :
    (insertLink x l).Pairwise (fun a b => a.order ≤ b.order) := by
  induction l with
  | nil => simp [insertLink]
  | cons y ys ih =>
    rw [List.pairwise_cons] at h
    obtain ⟨hy, hys⟩ := h
    by_cases hlt : y.order < x.order
    · simp only [insertLink, if_pos hlt]
      rw [List.pairwise_cons]
      constructor
      · intro b hb
        rcases (mem_insertLink x ys b).mp hb with hbx | hbm
        · subst hbx; omega
        · exact hy b hbm
      · exact ih hys
    · simp only [insertLink, if_neg hlt]
      rw [List.pairwise_cons]
      constructor
      · intro b hb
        rcases List.mem_cons.mp hb with hby | hbm
        · subst hby; omega
        · have := hy b hbm; omega
      · rw [List.pairwise_cons]; exact ⟨hy, hys⟩

theorem pairwise_sortLinks (l : List Link) :
    (sortLinks l).Pairwise (fun a b => a.order ≤ b.order) := by
  induction l with
  | nil => simp [sortLinks]
  | cons x xs ih => exact pairwise_insertLink x _ ih

theorem filter_insertLink (x : Link) (l : List Link) (k : Int) :
    (insertLink x l).filter (fun a => a.order == k) =
      if x.order = k then x :: l.filter (fun a => a.order == k)
      else l.filter (fun a => a.order == k) := by
  induction l with
  | nil =>
    by_cases h : x.order = k <;> simp [insertLink, h]
  | cons y ys ih =>
    by_cases hlt : y.order < x.order
    · rw [show insertLink x (y :: ys) = y :: insertLink x ys from by simp [insertLink, hlt]]
      by_cases hx : x.order = k
      · have hy : ¬ (y.order = k) := by omega
        simp [List.filter_cons, hx, hy, ih]
      · by_cases hyk : y.order = k <;> simp [List.filter_cons, hx, hyk, ih]
    · rw [show insertLink x (y :: ys) = x :: y :: ys from by simp [insertLink, hlt]]
      by_cases hx : x.order = k <;> by_cases hyk : y.order = k <;>
        simp [List.filter_cons, hx, hyk]

/-- Stability of the sort: for each `order` value, the subsequence of elements
carrying that value is exactly the same (same elements, same relative order)
as in the input list. -/
theorem filter_sortLinks (l : List Link) (k : Int) :
    (sortLinks l).filter (fun a => a.order == k) = l.filter (fun a => a.order == k) := by
  induction l with
  | nil => simp [sortLinks]
  | cons x xs ih =>
    by_cases hx : x.order = k <;>
      simp [sortLinks, filter_insertLink, hx, List.filter_cons, ih]

namespace Profiles

/-- `_get_resume_url_from_key`: presigned GET URL for a stored object key.
Returns `none` when the key is empty or the bucket (hence the S3 client) is not
configured, otherwise defers to the storage capability, which may itself fail. -/
def get_resume_url_from_key (presign : String → Option String) (bucket key : String) :
    Option String :=
  if key == "" then none
  else if bucket == "" then none
  else presign key

/-- `_get_avatar_url_from_key`: same contract as `_get_resume_url_from_key`. -/
def get_avatar_url_from_key (presign : String → Option String) (bucket key : String) :
    Option String :=
  if key == "" || bucket == "" then none
  else presign key

/-- `_get_resume_url(profile)`: resolve the resume URL from a stored profile.
A stored URL that is an unsigned direct S3 URL is regenerated from the key; any
other stored URL is returned as is; with no stored URL the key is presigned. -/
def get_resume_url (presign : String → Option String) (bucket : String)
    (p : StoredProfile) : String :=
  let resume_url := pyOrS (pyStr p.resume_url) (pyStr p.resumeUrl)
  let resume_key := pyStr p.resume_key
  if resume_url != "" && containsSub resume_url "s3.amazonaws.com" &&
      !containsSub resume_url "X-Amz-Signature" then
    if resume_key != "" then
      pyOrS ((get_resume_url_from_key presign bucket resume_key).getD "") resume_url
    else resume_url
  else if resume_url != "" then resume_url
  else if resume_key != "" then
    (get_resume_url_from_key presign bucket resume_key).getD ""
  else ""

/-- The partial-update request body of `POST /profiles`; `none` models an
absent JSON key. -/
structure Body where
  username : Option String := none
  full_name : Option String := none
  displayName : Option String := none
  title : Option String := none
  bio : Option String := none
  skills : Option (List String) := none
  social_links : Option (List (String × String)) := none
  projects : Option (List (List (String × String))) := none
  profile_image_url : Option String := none
  avatarUrl : Option String := none
  avatar_key : Option String := none
  email : Option String := none
  phone : Option String := none
  show_email : Option Bool := none
  show_phone : Option Bool := none
  show_resume : Option Bool := none
  favorite_color : Option String := none
  resume_key : Option String := none
  resume_url : Option String := none
  date_of_birth : Option String := none
deriving DecidableEq

/-- The merged `profile_item` built by `create_or_update_profile` (source lines
421-608) from the request body and the existing stored item (if any):
scalar fields override on key presence, `social_links`/`projects` override only
when non-empty, `skills` overrides whenever the key holds a list, avatar key is
extracted from a direct S3 URL, and the resume URL is derived from the key
unless explicitly submitted. -/
def mergeProfileItem (presign : String → Option String) (bucket : String)
    (body : Body) (now user_id username : String)
    (existingOpt : Option StoredProfile) : StoredProfile :=
  let exi := existingOpt.getD { username := "", user_id := "" }
  let profile_image_url0 := pyOrS (pyStr body.profile_image_url) (pyStr body.avatarUrl)
  let profile_image_url :=
    if profile_image_url0 != "" then profile_image_url0
    else pyOrS exi.profile_image_url exi.avatar_url
  let avatar_key0 := pyStr body.avatar_key
  let avatar_key1 := if avatar_key0 != "" then avatar_key0 else exi.avatar_key
  let avatar_key :=
    if profile_image_url != "" && containsSub profile_image_url "s3.amazonaws.com" &&
        avatar_key1 == "" then
      match splitPart1 profile_image_url ".s3.amazonaws.com/" with
      | some p1 => p1
      | none => avatar_key1
    else avatar_key1
  let social_links :=
    match body.social_links with
    | some sl =>
      if sl.length > 0 then sl
      else if exi.social_links.length > 0 then exi.social_links else []
    | none => if exi.social_links.length > 0 then exi.social_links else []
  let skills :=
    match body.skills with
    | some s => s
    | none => exi.skills
  let projects :=
    match body.projects with
    | some pr =>
      if pr.length > 0 then pr
      else if exi.projects.length > 0 then exi.projects else []
    | none => if exi.projects.length > 0 then exi.projects else []
  let favorite_color :=
    match body.favorite_color with
    | some c => some c
    | none =>
      match exi.favorite_color with
      | some c => some c
      | none => some ""
  let resume_key_to_use :=
    if pyStr body.resume_key != "" then pyStr body.resume_key else pyStr exi.resume_key
  let resume_key_item : Option String :=
    if resume_key_to_use != "" then some resume_key_to_use else none
  let resume_url_item : Option String :=
    if pyStr body.resume_url != "" && pyStrip (pyStr body.resume_url) != "" then
      some (pyStr body.resume_url)
    else if resume_key_to_use != "" then
      match get_resume_url_from_key presign bucket resume_key_to_use with
      | some u => some u
      | none =>
        if bucket != "" then
          some ("https://" ++ bucket ++ ".s3.amazonaws.com/" ++ resume_key_to_use)
        else
          match exi.resume_url with
          | some u => some u
          | none => none
    else
      match exi.resume_url with
      | some u => some u
      | none => none
  let date_of_birth :=
    if pyStr body.date_of_birth != "" then some (pyStr body.date_of_birth)
    else exi.date_of_birth
  let created_at :=
    match existingOpt with
    | none => now
    | some _ => exi.created_at.getD now
  { username := username
    user_id := user_id
    full_name := pyOrS (pyOrS (pyStr body.full_name) (pyStr body.displayName)) exi.full_name
    title := match body.title with | some t => t | none => exi.title
    bio := match body.bio with | some t => t | none => exi.bio
    skills := skills
    social_links := social_links
    projects := projects
    avatar_key := avatar_key
    avatar_url := profile_image_url
    profile_image_url := profile_image_url
    email := match body.email with | some t => t | none => exi.email
    phone := match body.phone with | some t => t | none => exi.phone
    show_email := match body.show_email with | some b => b | none => exi.show_email
    show_phone := match body.show_phone with | some b => b | none => exi.show_phone
    show_resume := match body.show_resume with | some b => b | none => exi.show_resume
    favorite_color := favorite_color
    resume_key := resume_key_item
    resume_url := resume_url_item
    resumeUrl := none
    date_of_birth := date_of_birth
    picture := none
    created_at := some created_at
    updated_at := now }

/-- Failure injection for the backing-store calls of `create_or_update_profile`,
in source order: the username-conflict `get_item`, the users-table section, the
merge-base `get_item`, the final `put_item`.  Each carries the error detail. -/
structure FailPlan where
  profilesGet1 : Option String := none
  usersOp : Option String := none
  profilesGet2 : Option String := none
  profilesPut : Option String := none
deriving DecidableEq

/-- A no-failure plan: every store call succeeds. -/
def noFail : FailPlan := {}

/-- The resolved request of `POST /profiles`: optional authenticated subject,
the `email` claim, the parsed JSON body, and the current timestamp. -/
structure UpsertReq where
  userId : Option String := none
  claimsEmail : String := ""
  body : Body := {}
  now : String := ""
deriving DecidableEq

/-- `create_or_update_profile` (POST /profiles): authentication check,
username requirement, username-conflict check (409 before any write), user
record upsert, profile merge and save.  Returns the response together with the
updated users and profiles tables. -/
def create_or_update_profile (presign : String → Option String) (bucket : String)
    (plan : FailPlan) (req : UpsertReq)
    (users : List UserRecord) (profiles : List StoredProfile) :
    HttpResponse × List UserRecord × List StoredProfile :=
  let uid := pyStr req.userId
  if uid == "" then
    (⟨401, .err "Unauthorized" (some "No user_id found in JWT claims")⟩, users, profiles)
  else
  let username := pyStr req.body.username
  if username == "" then
    (⟨400, .err "username is required" none⟩, users, profiles)
  else
  match plan.profilesGet1 with
  | some _ =>
    (⟨500, .err "Internal server error" (some "An error occurred processing your request")⟩,
      users, profiles)
  | none =>
  let conflict :=
    match getProfile profiles username with
    | some e => e.user_id != uid
    | none => false
  if conflict then
    (⟨409, .err "Username already taken" none⟩, users, profiles)
  else
  match plan.usersOp with
  | some _ =>
    (⟨500, .err "Internal server error" (some "An error occurred processing your request")⟩,
      users, profiles)
  | none =>
  let dob := pyStr req.body.date_of_birth
  let users1 :=
    match getUser users uid with
    | none =>
      putUser users
        { user_id := uid
          email := req.claimsEmail
          username := username
          created_at := some req.now
          updated_at := req.now
          profile_complete := true
          date_of_birth := if dob != "" then some dob else none }
    | some _ =>
      updateUser users uid (fun u =>
        { u with
          username := username
          updated_at := req.now
          profile_complete := true
          date_of_birth := if dob != "" then some dob else u.date_of_birth })
  match plan.profilesGet2 with
  | some _ =>
    (⟨500, .err "Internal server error" (some "An error occurred processing your request")⟩,
      users1, profiles)
  | none =>
  let existingOpt := getProfile profiles username
  let item := mergeProfileItem presign bucket req.body req.now uid username existingOpt
  match plan.profilesPut with
  | some _ =>
    (⟨500, .err "Internal server error" (some "An error occurred saving your profile")⟩,
      users1, profiles)
  | none =>
    (⟨200, .profileSaved "Profile saved successfully" item⟩, users1, putProfile profiles item)

/-- `get_public_profile` (GET /profiles/\x7busername\x7d): look up the profile,
determine ownership from the requester identity, fetch the owner's non-deleted
links sorted ascending by `order` (stable), resolve avatar and resume URLs, and
build the public projection with owner-gated contact fields.  `profFail`
injects a failing profile lookup; `linksOk = false` models an unavailable links
table (the handler then continues with an empty list). -/
def get_public_profile (presign : String → Option String) (bucket : String)
    (profFail : Option String) (linksOk : Bool)
    (profiles : List StoredProfile) (links : List Link)
    (username : String) (requester : Option String) : HttpResponse :=
  match profFail with
  | some _ =>
    ⟨500, .err "Internal server error" (some "An error occurred retrieving the profile")⟩
  | none =>
  match getProfile profiles username with
  | none => ⟨404, .err "Profile not found" none⟩
  | some p =>
    let requesterId := pyStr requester
    let is_owner := requesterId != "" && requesterId == p.user_id
    let sortedLinks :=
      if linksOk then
        sortLinks (links.filter (fun l => l.user_id == p.user_id && l.is_deleted == false))
      else []
    let avatar_url0 := pyOrS p.avatar_url p.profile_image_url
    let avatar_key := p.avatar_key
    let avatar_url :=
      if avatar_url0 != "" && containsSub avatar_url0 "s3.amazonaws.com" &&
          !containsSub avatar_url0 "X-Amz-Signature" then
        if avatar_key != "" then
          pyOrS ((get_avatar_url_from_key presign bucket avatar_key).getD "") avatar_url0
        else avatar_url0
      else if avatar_url0 == "" && avatar_key != "" then
        (get_avatar_url_from_key presign bucket avatar_key).getD ""
      else avatar_url0
    let pp : PublicProfile :=
      { username := p.username
        full_name := p.full_name
        title := p.title
        bio := p.bio
        skills := p.skills
        social_links := p.social_links
        projects := p.projects
        profile_image_url := avatar_url
        avatar_url := avatar_url
        links := sortedLinks.map (fun l => (l.title, l.url))
        resume_url := get_resume_url presign bucket p
        show_email := p.show_email
        show_phone := p.show_phone
        show_resume := p.show_resume
        favorite_color := pyStr p.favorite_color
        email :=
          if is_owner then (if p.email != "" then some p.email else none)
          else (if p.show_email then some p.email else none)
        phone :=
          if is_owner then (if p.phone != "" then some p.phone else none)
          else (if p.show_phone then some p.phone else none)
        resume_key :=
          if p.show_resume && pyStr p.resume_key != "" then some (pyStr p.resume_key)
          else none }
    ⟨200, .publicProfile pp⟩

/-- `get_current_user_profile` (GET /users/me): completeness snapshot of the
callers user record.  `fail` injects a failing users-table lookup. -/
def get_current_user_profile (fail : Option String) (users : List UserRecord)
    (reqUserId : Option String) : HttpResponse :=
  let uid := pyStr reqUserId
  if uid == "" then
    ⟨401, .err "Unauthorized" (some "No user_id found in JWT claims")⟩
  else
  match fail with
  | some _ =>
    ⟨500, .err "Internal server error" (some "An error occurred retrieving your profile")⟩
  | none =>
  match getUser users uid with
  | none => ⟨404, .userNotFound⟩
  | some u =>
    ⟨200, .userMe u.user_id u.username u.email u.profile_complete u.date_of_birth u.fullname⟩

/-- `check_username_availability` (GET /username/check): trim and lowercase the
parameter, validate the handle format, then probe the profiles table.  `fail`
injects a failing lookup; the handler then echoes the error detail in the 500
body. -/
def check_username_availability (fail : Option String) (profiles : List StoredProfile)
    (usernameParam : Option String) : HttpResponse :=
  let username := pyLower (pyStrip (pyStr usernameParam))
  if username == "" then
    ⟨400, .err "Username parameter is required" none⟩
  else if !isHandleFormat username then
    ⟨400, .invalidUsername false
      "Username must be 3-20 characters and contain only letters, numbers, underscores, and hyphens"⟩
  else
  match fail with
  | some d => ⟨500, .err "Database error" (some d)⟩
  | none => ⟨200, .availability (getProfile profiles username).isNone username⟩

end Profiles

namespace Links

/-- `delete_link` (DELETE /links/\x7bid\x7d): soft delete.  The lookup and the
update are both keyed by the callers account id together with the path link id;
a link stored under another account is invisible and the handler answers 404
without touching the table. -/
def delete_link (links : List Link) (reqUserId : Option String) (link_id now : String) :
    HttpResponse × List Link :=
  let uid := pyStr reqUserId
  if uid == "" then
    (⟨401, .err "Unauthorized" (some "No user_id found in JWT claims")⟩, links)
  else if link_id == "" || link_id.length > 100 then
    (⟨400, .err "Validation error" (some "Invalid link ID")⟩, links)
  else
  match findLink links uid link_id with
  | none => (⟨404, .err "Not found" (some "Link not found")⟩, links)
  | some _ =>
    (⟨200, .msg "Link deleted successfully"⟩,
      links.map (fun l =>
        if l.user_id == uid && l.link_id == link_id then
          { l with is_deleted := true, updated_at := now }
        else l))

end Links

namespace PostConfirmation

/-- The Cognito post-confirmation event attributes consumed by the handler
(raw attribute values; the handler itself strips and lowercases). -/
structure PcAttrs where
  sub : Option String := none
  userName : Option String := none
  email : String := ""
  custom_fullname : String := ""
  custom_date_of_birth : String := ""
  custom_username : String := ""
  picture : String := ""
  given_name : String := ""
  family_name : String := ""
  name : String := ""
deriving DecidableEq

/-- The values the handler derives from the event before touching storage
(source lines 53-127): identity id, cleaned email, full-name fallback chain,
provisional or validated username, social-signup flag. -/
structure PcDerived where
  user_id : String
  email : String
  fullname : String
  username : String
  date_of_birth : String
  picture : String
  is_social_login : Bool
deriving DecidableEq

/-- Derivation of `PcDerived` from the event attributes. -/
def pcDerive (attrs : PcAttrs) : PcDerived :=
  let user_id := pyOrS (pyStr attrs.sub) (pyStr attrs.userName)
  let email := pyStrip attrs.email
  let fullname0 := pyStrip attrs.custom_fullname
  let date_of_birth0 := pyStrip attrs.custom_date_of_birth
  let username0 := pyLower (pyStrip attrs.custom_username)
  let picture := pyStrip attrs.picture
  let is_social_login := username0 == ""
  let fullname :=
    if fullname0 != "" then fullname0
    else
      let given := pyStrip attrs.given_name
      let family := pyStrip attrs.family_name
      let nm := pyStrip attrs.name
      if nm != "" then nm
      else if given != "" || family != "" then pyStrip (given ++ " " ++ family)
      else if email != "" then splitPart0 email "@" else "User"
  let username1 :=
    if is_social_login then
      let email_username := if email != "" then splitPart0 email "@" else ""
      let u := pyTake (sanitizeChars (pyLower email_username)) 20
      if u.length < 3 then "user_" ++ pyTake user_id 8 else u
    else username0
  let date_of_birth := if is_social_login then "" else date_of_birth0
  let username := if isHandleFormat username1 then username1 else "user_" ++ pyTake user_id 8
  { user_id := user_id
    email := email
    fullname := fullname
    username := username
    date_of_birth := date_of_birth
    picture := picture
    is_social_login := is_social_login }

/-- `if x not in ids: ids.append(x)`. -/
def appendIfAbsent (ids : List String) (x : String) : List String :=
  if x ∈ ids then ids else ids ++ [x]

/-- The set-union step of account linking (source lines 219-223): start from
the stored `cognito_user_ids`, append the original account id if absent, then
the new identity id if absent. -/
def linkIds (eu : UserRecord) (user_id : String) : List String :=
  appendIfAbsent (appendIfAbsent (eu.cognito_user_ids.getD []) eu.user_id) user_id

/-- The `user_item` written to the users table (source lines 191-243): base
record from the event, account-linking or same-id update against the account
found by email, conditional `date_of_birth`, and preservation of a stored
username and richer fullname. -/
def pcUserItem (d : PcDerived) (now : String) (existing_user : Option UserRecord) :
    UserRecord :=
  let base : UserRecord :=
    { user_id := d.user_id
      email := d.email
      fullname := some d.fullname
      username := d.username
      created_at := some now
      updated_at := now
      profile_complete := !d.is_social_login
      picture := if d.picture != "" then some d.picture else none
      cognito_user_ids := none
      date_of_birth := none }
  let item1 :=
    match existing_user with
    | some eu =>
      if eu.user_id != d.user_id then
        { base with
          user_id := eu.user_id
          cognito_user_ids := some (linkIds eu d.user_id)
          created_at := some (eu.created_at.getD now) }
      else { base with created_at := some (eu.created_at.getD now) }
    | none => base
  let item2 :=
    if d.date_of_birth != "" &&
        (match existing_user with
          | none => true
          | some eu => pyStr eu.date_of_birth == "") then
      { item1 with date_of_birth := some d.date_of_birth }
    else item1
  match existing_user with
  | some eu =>
    let a :=
      if d.username == "" || pyStartsWith d.username "user_" then
        { item2 with username := eu.username }
      else item2
    let exFull := pyStr eu.fullname
    if exFull != "" && exFull.length > d.fullname.length then { a with fullname := some exFull }
    else a
  | none => item2

/-- The profile phase for non-social signups (source lines 277-397): find the
profile already owned by the (possibly linked) account, reuse its username,
disambiguate a username taken by a different account, and write the profile
item preserving `created_at`, a longer stored full name and a stored date of
birth. -/
def pcProfilePhase (d : PcDerived) (now : String) (existing_user : Option UserRecord)
    (profiles : List StoredProfile) : List StoredProfile :=
  let final_user_id :=
    match existing_user with
    | some eu => if eu.user_id != d.user_id then eu.user_id else d.user_id
    | none => d.user_id
  let existing_profile := (profiles.filter (fun p => p.user_id == final_user_id)).head?
  let username2 :=
    match existing_profile with
    | some ep => if ep.username != "" then ep.username else d.username
    | none => d.username
  let username3 :=
    match getProfile profiles username2 with
    | some q => if q.user_id != final_user_id then username2 ++ "_" ++ pyTake final_user_id 8
                else username2
    | none => username2
  let pitem0 : StoredProfile :=
    { username := username3
      user_id := final_user_id
      email := d.email
      full_name := d.fullname
      created_at := some now
      updated_at := now
      picture := if d.picture != "" then some d.picture else none }
  let pitem1 :=
    match existing_profile with
    | some ep =>
      let b := { pitem0 with created_at := some (ep.created_at.getD now) }
      if ep.full_name != "" && ep.full_name.length > d.fullname.length then
        { b with full_name := ep.full_name }
      else b
    | none => pitem0
  let pitem2 :=
    if d.date_of_birth != "" &&
        (match existing_profile with
          | none => true
          | some ep => pyStr ep.date_of_birth == "") then
      { pitem1 with date_of_birth := some d.date_of_birth }
    else pitem1
  putProfile profiles pitem2

/-- The post-confirmation trigger `handler` (side effects on the users and
profiles tables; the Lambda always returns the event unchanged).  Aborts
without writing when the confirmed identity carries no email; social signups
skip the profile phase. -/
def handler (attrs : PcAttrs) (now : String)
    (users : List UserRecord) (profiles : List StoredProfile) :
    List UserRecord × List StoredProfile :=
  let d := pcDerive attrs
  if d.email == "" then (users, profiles)
  else
    let existing_user := (users.filter (fun u => u.email == d.email)).head?
    let item := pcUserItem d now existing_user
    let users1 := putUser users item
    let profiles1 :=
      if d.is_social_login then profiles
      else pcProfilePhase d now existing_user profiles
    (users1, profiles1)

/-- The linked identity ids stored for an account, as read back from the users
table (empty when the account or the attribute is absent). -/
def linkedIdsOf (us : List UserRecord) (uid : String) : List String :=
  match getUser us uid with
  | some u => u.cognito_user_ids.getD []
  | none => []

end PostConfirmation

/-- Status code of a response. -/
def respStatus (r : HttpResponse) : Nat := r.status

/-- The `email` field of a public-profile response body (`none` when the key is
absent or the body is not a public profile). -/
def respPublicEmail (r : HttpResponse) : Option String :=
  match r.body with
  | .publicProfile pp => pp.email
  | _ => none

/-- The `links` field of a public-profile response body. -/
def respPublicLinks (r : HttpResponse) : List (String × String) :=
  match r.body with
  | .publicProfile pp => pp.links
  | _ => []

/-- The `resume_url` field of a public-profile response body. -/
def respPublicResumeUrl (r : HttpResponse) : Option String :=
  match r.body with
  | .publicProfile pp => some pp.resume_url
  | _ => none

namespace Profiles

/-- C1: when the submitted handle is stored for a different account, the upsert
answers 409 `Username already taken` and both the users table and the profiles
table are returned unchanged: the conflict check runs before any write. -/
theorem c1_handle_conflict_leaves_stores_unchanged
    (presign : String → Option String) (bucket : String) (plan : FailPlan)
    (req : UpsertReq) (users : List UserRecord) (profiles : List StoredProfile)
    (a h : String) (p : StoredProfile)
    (hauth : req.userId = some a) (ha : a ≠ "")
    (hun : req.body.username = some h) (hh : h ≠ "")
    (hplan : plan.profilesGet1 = none)
    (hp : getProfile profiles h = some p) (hown : p.user_id ≠ a) :
    create_or_update_profile presign bucket plan req users profiles =
      (⟨409, .err "Username already taken" none⟩, users, profiles) := by
  unfold create_or_update_profile
  simp [pyStr, hauth, hun, ha, hh, hplan, hp, hown]

/-- C1 witness: a concrete conflicting upsert. -/
theorem c1_witness :
    create_or_update_profile (fun _ => none) "" noFail
        { userId := some "A", body := { username := some "bobhandle" }, now := "t1" }
        [] [{ username := "bobhandle", user_id := "B" }] =
      (⟨409, .err "Username already taken" none⟩, [],
        [{ username := "bobhandle", user_id := "B" }]) :=
  c1_handle_conflict_leaves_stores_unchanged (fun _ => none) "" noFail
    { userId := some "A", body := { username := some "bobhandle" }, now := "t1" }
    [] [{ username := "bobhandle", user_id := "B" }]
    "A" "bobhandle" { username := "bobhandle", user_id := "B" }
    rfl (by decide) rfl (by decide) rfl (by decide) (by decide)

/-- The profile used to exercise C2: stored skills are non-empty. -/
def pAliceC2 : StoredProfile := { username := "alice", user_id := "A", skills := ["Python"] }

/-- An upsert request for C2 with a given skills submission. -/
def reqC2 (sk : Option (List String)) : UpsertReq :=
  { userId := some "A", body := { username := some "alice", skills := sk }, now := "t1" }

/-- C2: evaluation of the upsert merge at the inputs the claim describes.  The
stored profile holds `skills = ["Python"]`.  Omitting `skills` preserves the
list and submitting `["Go"]` replaces it, as claimed; but submitting the
explicit empty list `[]` also replaces the stored list with `[]`, contradicting
the claimed non-empty-wins rule (and the comment in the source, which says the
list is only updated when provided *and not empty*). -/
theorem c2_empty_skills_list_overwrites :
    pAliceC2.skills = ["Python"] ∧
    (getProfile (create_or_update_profile (fun _ => none) "" noFail (reqC2 none)
        [] [pAliceC2]).2.2 "alice").map (fun p => p.skills) = some ["Python"] ∧
    (getProfile (create_or_update_profile (fun _ => none) "" noFail (reqC2 (some []))
        [] [pAliceC2]).2.2 "alice").map (fun p => p.skills) = some [] ∧
    (getProfile (create_or_update_profile (fun _ => none) "" noFail (reqC2 (some ["Go"]))
        [] [pAliceC2]).2.2 "alice").map (fun p => p.skills) = some ["Go"] := by
  decide

/-- C3: with an existing profile owned by the caller, submitting `bio: ""`
stores the empty bio while omitting the `bio` key preserves the stored bio. -/
theorem c3_bio_clear_vs_omit
    (presign : String → Option String) (bucket : String)
    (req : UpsertReq) (users : List UserRecord) (profiles : List StoredProfile)
    (a h : String) (p : StoredProfile)
    (hauth : req.userId = some a) (ha : a ≠ "")
    (hun : req.body.username = some h) (hh : h ≠ "")
    (hp : getProfile profiles h = some p) (hown : p.user_id = a)
    (hbio : p.bio ≠ "") :
    (req.body.bio = some "" →
      (getProfile (create_or_update_profile presign bucket noFail req users profiles).2.2 h).map
        (fun q => q.bio) = some "") ∧
    (req.body.bio = none →
      (getProfile (create_or_update_profile presign bucket noFail req users profiles).2.2 h).map
        (fun q => q.bio) = some p.bio) := by
  have hrun : (create_or_update_profile presign bucket noFail req users profiles).2.2
      = putProfile profiles (mergeProfileItem presign bucket req.body req.now a h (some p)) := by
    unfold create_or_update_profile
    simp [pyStr, hauth, hun, ha, hh, noFail, hp, hown]
  have hget := getProfile_putProfile profiles
    (mergeProfileItem presign bucket req.body req.now a h (some p))
  rw [show (mergeProfileItem presign bucket req.body req.now a h (some p)).username = h from rfl]
    at hget
  constructor
  · intro hb
    rw [hrun, hget]
    simp [mergeProfileItem, hb]
  · intro hb
    rw [hrun, hget]
    simp [mergeProfileItem, hb]

/-- C3 witness: clearing a concrete non-empty bio with `bio: ""`. -/
theorem c3_witness :
    (getProfile (create_or_update_profile (fun _ => none) "" noFail
        { userId := some "A", body := { username := some "alice", bio := some "" }, now := "t1" }
        [] [{ username := "alice", user_id := "A", bio := "old words" }]).2.2 "alice").map
      (fun q => q.bio) = some "" :=
  (c3_bio_clear_vs_omit (fun _ => none) ""
    { userId := some "A", body := { username := some "alice", bio := some "" }, now := "t1" }
    [] [{ username := "alice", user_id := "A", bio := "old words" }]
    "A" "alice" { username := "alice", user_id := "A", bio := "old words" }
    rfl (by decide) rfl (by decide) rfl rfl (by decide)).1 rfl

end Profiles

namespace Profiles

/-- C4: in the public projection, a non-owner requester sees the `email` field
exactly when `show_email` is set; the owner sees it exactly when a non-empty
email is stored, regardless of `show_email`. -/
theorem c4_email_visibility
    (presign : String → Option String) (bucket : String) (linksOk : Bool)
    (profiles : List StoredProfile) (links : List Link)
    (h r : String) (p : StoredProfile)
    (hp : getProfile profiles h = some p) :
    (r ≠ "" → r ≠ p.user_id →
      (get_public_profile presign bucket none linksOk profiles links h (some r)).status = 200 ∧
      respPublicEmail (get_public_profile presign bucket none linksOk profiles links h (some r))
        = (if p.show_email then some p.email else none) ∧
      ((respPublicEmail
          (get_public_profile presign bucket none linksOk profiles links h (some r))).isSome
        ↔ p.show_email = true)) ∧
    (p.user_id ≠ "" →
      (get_public_profile presign bucket none linksOk profiles links h
          (some p.user_id)).status = 200 ∧
      respPublicEmail
          (get_public_profile presign bucket none linksOk profiles links h (some p.user_id))
        = (if p.email ≠ "" then some p.email else none)) := by
  constructor
  · intro hr hrne
    unfold get_public_profile respPublicEmail
    simp [pyStr, hp, hr, hrne]
  · intro hne
    unfold get_public_profile respPublicEmail
    simp [pyStr, hp, hne]

/-- C4 witness: a hidden email is absent for a stranger and present for the
owner. -/
theorem c4_witness :
    ((get_public_profile (fun _ => none) "" none true
        [{ username := "bob", user_id := "B", email := "b@x.com" }] [] "bob"
        (some "Z")).status = 200 ∧
      respPublicEmail (get_public_profile (fun _ => none) "" none true
        [{ username := "bob", user_id := "B", email := "b@x.com" }] [] "bob" (some "Z"))
        = (if ({ username := "bob", user_id := "B", email := "b@x.com" } :
            StoredProfile).show_email then some "b@x.com" else none) ∧
      ((respPublicEmail (get_public_profile (fun _ => none) "" none true
          [{ username := "bob", user_id := "B", email := "b@x.com" }] [] "bob"
          (some "Z"))).isSome ↔
        ({ username := "bob", user_id := "B", email := "b@x.com" } :
          StoredProfile).show_email = true)) ∧
    ((get_public_profile (fun _ => none) "" none true
        [{ username := "bob", user_id := "B", email := "b@x.com" }] [] "bob"
        (some "B")).status = 200 ∧
      respPublicEmail (get_public_profile (fun _ => none) "" none true
        [{ username := "bob", user_id := "B", email := "b@x.com" }] [] "bob" (some "B"))
        = (if "b@x.com" ≠ "" then some "b@x.com" else none)) :=
  ⟨(c4_email_visibility (fun _ => none) "" true
      [{ username := "bob", user_id := "B", email := "b@x.com" }] [] "bob" "Z"
      { username := "bob", user_id := "B", email := "b@x.com" } rfl).1
    (by decide) (by decide),
   (c4_email_visibility (fun _ => none) "" true
      [{ username := "bob", user_id := "B", email := "b@x.com" }] [] "bob" "Z"
      { username := "bob", user_id := "B", email := "b@x.com" } rfl).2
    (by decide)⟩

/-- C5: the link list of the public projection is the image, on `(title, url)`
only, of a list of link records that is a permutation of the non-deleted links
of the owning account, is sorted ascending by `order`, and preserves for every
`order` value the relative stored order of its ties (stable sort); deleted
links never appear. -/
theorem c5_links_projection
    (presign : String → Option String) (bucket : String)
    (profiles : List StoredProfile) (links : List Link)
    (h : String) (r : Option String) (p : StoredProfile)
    (hp : getProfile profiles h = some p) :
    ∃ sl : List Link,
      respPublicLinks (get_public_profile presign bucket none true profiles links h r)
        = sl.map (fun l => (l.title, l.url)) ∧
      sl.Perm (links.filter (fun l => l.user_id == p.user_id && l.is_deleted == false)) ∧
      sl.Pairwise (fun a b => a.order ≤ b.order) ∧
      (∀ l ∈ sl, l.is_deleted = false ∧ l.user_id = p.user_id) ∧
      (∀ k : Int, sl.filter (fun l => l.order == k)
        = (links.filter (fun l => l.user_id == p.user_id && l.is_deleted == false)).filter
            (fun l => l.order == k)) := by
  refine ⟨sortLinks (links.filter (fun l => l.user_id == p.user_id && l.is_deleted == false)),
    ?_, perm_sortLinks _, pairwise_sortLinks _, ?_, fun k => filter_sortLinks _ k⟩
  · unfold get_public_profile respPublicLinks
    simp [hp]
  · intro l hl
    have hmem : l ∈ links.filter (fun l => l.user_id == p.user_id && l.is_deleted == false) :=
      (perm_sortLinks _).mem_iff.mp hl
    have hcond := List.of_mem_filter hmem
    simp only [Bool.and_eq_true, beq_iff_eq] at hcond
    exact ⟨hcond.2, hcond.1⟩

/-- Concrete link table for the C5 witness: orders `[3,1,1,2]` in storage
order, plus a deleted link and a foreign link. -/
def linksW : List Link :=
  [ { user_id := "A", link_id := "l1", title := "t3", url := "u3", order := 3 },
    { user_id := "A", link_id := "l2", title := "t1a", url := "u1a", order := 1 },
    { user_id := "A", link_id := "l3", title := "t1b", url := "u1b", order := 1 },
    { user_id := "A", link_id := "l4", title := "t2", url := "u2", order := 2 },
    { user_id := "A", link_id := "l5", title := "gone", url := "gone", order := 0,
      is_deleted := true },
    { user_id := "B", link_id := "l6", title := "other", url := "other", order := 0 } ]

/-- C5 witness: the projection of the concrete link table. -/
theorem c5_witness :
    ∃ sl : List Link,
      respPublicLinks (get_public_profile (fun _ => none) "" none true
          [{ username := "alice", user_id := "A" }] linksW "alice" none)
        = sl.map (fun l => (l.title, l.url)) ∧
      sl.Perm (linksW.filter (fun l => l.user_id == "A" && l.is_deleted == false)) ∧
      sl.Pairwise (fun a b => a.order ≤ b.order) ∧
      (∀ l ∈ sl, l.is_deleted = false ∧ l.user_id = "A") ∧
      (∀ k : Int, sl.filter (fun l => l.order == k)
        = (linksW.filter (fun l => l.user_id == "A" && l.is_deleted == false)).filter
            (fun l => l.order == k)) :=
  c5_links_projection (fun _ => none) "" [{ username := "alice", user_id := "A" }]
    linksW "alice" none { username := "alice", user_id := "A" } rfl

end Profiles

namespace PostConfirmation

theorem mem_appendIfAbsent_of_mem (ids : List String) (x y : String) (h : y ∈ ids) :
    y ∈ appendIfAbsent ids x := by
  unfold appendIfAbsent
  split <;> simp [List.mem_append, h]

theorem self_mem_appendIfAbsent (ids : List String) (x : String) :
    x ∈ appendIfAbsent ids x := by
  unfold appendIfAbsent
  split <;> simp_all [List.mem_append]

theorem nodup_appendIfAbsent (ids : List String) (x : String) (h : ids.Nodup) :
    (appendIfAbsent ids x).Nodup := by
  unfold appendIfAbsent
  split <;> simp_all [List.nodup_append, List.disjoint_singleton]

theorem mem_linkIds_of_mem (eu : UserRecord) (uid x : String)
    (hx : x ∈ eu.cognito_user_ids.getD []) : x ∈ linkIds eu uid := by
  exact mem_appendIfAbsent_of_mem _ _ _ (mem_appendIfAbsent_of_mem _ _ _ hx)

theorem orig_mem_linkIds (eu : UserRecord) (uid : String) : eu.user_id ∈ linkIds eu uid := by
  exact mem_appendIfAbsent_of_mem _ _ _ (self_mem_appendIfAbsent _ _)

theorem uid_mem_linkIds (eu : UserRecord) (uid : String) : uid ∈ linkIds eu uid := by
  exact self_mem_appendIfAbsent _ _

theorem nodup_linkIds (eu : UserRecord) (uid : String)
    (h : (eu.cognito_user_ids.getD []).Nodup) : (linkIds eu uid).Nodup := by
  exact nodup_appendIfAbsent _ _ (nodup_appendIfAbsent _ _ h)

/-- In the account-linking branch (email matched, different identity id) the
written item keeps the original account id, carries the unioned identity set
and preserves the original creation timestamp. -/
theorem pcUserItem_linked_fields (d : PcDerived) (now : String) (eu : UserRecord)
    (hne : eu.user_id ≠ d.user_id) :
    (pcUserItem d now (some eu)).user_id = eu.user_id ∧
    (pcUserItem d now (some eu)).cognito_user_ids = some (linkIds eu d.user_id) ∧
    (pcUserItem d now (some eu)).created_at = some (eu.created_at.getD now) := by
  refine ⟨?_, ?_, ?_⟩ <;>
    simp [pcUserItem, hne, apply_ite UserRecord.user_id,
      apply_ite UserRecord.cognito_user_ids, apply_ite UserRecord.created_at]

/-- After the email guard, the users table written by the handler is exactly
`putUser` of the computed user item. -/
theorem handler_users (attrs : PcAttrs) (now : String)
    (users : List UserRecord) (profiles : List StoredProfile)
    (hemail : (pcDerive attrs).email ≠ "") :
    (handler attrs now users profiles).1 =
      putUser users
        (pcUserItem (pcDerive attrs) now
          ((users.filter (fun u => u.email == (pcDerive attrs).email)).head?)) := by
  unfold handler
  rw [if_neg (by simp [hemail])]

/-- C6 (amended): in the account-linking branch — the confirmed identity id
differs from the id of the account found by email — the stored linked-identity
set grows only by union: every previously linked id survives, and no duplicate
is introduced.  (The same-id re-confirmation branch instead rewrites the item
without `cognito_user_ids`; see the counterexample.) -/
theorem c6_linking_union_growth
    (attrs : PcAttrs) (now : String)
    (users : List UserRecord) (profiles : List StoredProfile) (eu : UserRecord)
    (hemail : (pcDerive attrs).email ≠ "")
    (hfind : (users.filter (fun u => u.email == (pcDerive attrs).email)).head? = some eu)
    (hne : eu.user_id ≠ (pcDerive attrs).user_id) :
    (∀ x ∈ eu.cognito_user_ids.getD [],
      x ∈ linkedIdsOf (handler attrs now users profiles).1 eu.user_id) ∧
    ((eu.cognito_user_ids.getD []).Nodup →
      (linkedIdsOf (handler attrs now users profiles).1 eu.user_id).Nodup) := by
  obtain ⟨hid, hids, _⟩ := pcUserItem_linked_fields (pcDerive attrs) now eu hne
  have hput := getUser_putUser users (pcUserItem (pcDerive attrs) now (some eu))
  rw [hid] at hput
  have hlookup : linkedIdsOf (handler attrs now users profiles).1 eu.user_id
      = linkIds eu (pcDerive attrs).user_id := by
    rw [handler_users attrs now users profiles hemail, hfind]
    unfold linkedIdsOf
    rw [hput]
    simp [hids]
  rw [hlookup]
  exact ⟨fun x hx => mem_linkIds_of_mem eu _ x hx, fun hnd => nodup_linkIds eu _ hnd⟩

/-- Fixtures for the C6 theorems: an account with two linked identities. -/
def uLinkedC6 : UserRecord :=
  { user_id := "A", email := "e@x.com", username := "alice", fullname := some "Alice Doe",
    created_at := some "t0", updated_at := "t0", profile_complete := true,
    cognito_user_ids := some ["A", "B"] }

/-- A confirmation event for a third identity sharing the email of `uLinkedC6`. -/
def attrsThirdC6 : PcAttrs :=
  { sub := some "C", email := "e@x.com", custom_username := "newalias" }

/-- C6 witness: linking a third identity to the concrete account preserves the
two stored ids without duplication. -/
theorem c6_witness :
    (∀ x ∈ uLinkedC6.cognito_user_ids.getD [],
      x ∈ linkedIdsOf (handler attrsThirdC6 "t1" [uLinkedC6] []).1 "A") ∧
    ((uLinkedC6.cognito_user_ids.getD []).Nodup →
      (linkedIdsOf (handler attrsThirdC6 "t1" [uLinkedC6] []).1 "A").Nodup) :=
  c6_linking_union_growth attrsThirdC6 "t1" [uLinkedC6] [] uLinkedC6
    (by decide) (by decide) (by decide)

/-- A re-confirmation event for the identity `A` itself (same id, same email). -/
def attrsReconfirmC6 : PcAttrs :=
  { sub := some "A", email := "e@x.com", custom_fullname := "Alice Doe",
    custom_username := "alice" }

/-- C6 counterexample: the account stores linked ids `["A", "B"]`; a
re-confirmation under the same identity id `A` rewrites the user item without
the `cognito_user_ids` attribute, so the previously linked id `B` is lost —
the stored set shrinks, contradicting the claim that it grows only by union
across every invocation. -/
theorem c6_counterexample :
    "B" ∈ linkedIdsOf [uLinkedC6] "A" ∧
    linkedIdsOf (handler attrsReconfirmC6 "t1" [uLinkedC6] []).1 "A" = [] := by
  decide

/-- C7: when a confirmed identity shares its email with an account stored under
a different identity id, the handler writes a single account record keyed by
the original account id whose linked set contains both the original and the new
identity id and whose `created_at` is the original one; no record appears under
the new identity id. -/
theorem c7_account_linking
    (attrs : PcAttrs) (now : String)
    (users : List UserRecord) (profiles : List StoredProfile) (eu : UserRecord) (t : String)
    (hemail : (pcDerive attrs).email ≠ "")
    (hfind : (users.filter (fun u => u.email == (pcDerive attrs).email)).head? = some eu)
    (hne : eu.user_id ≠ (pcDerive attrs).user_id)
    (hcreated : eu.created_at = some t) :
    ∃ u : UserRecord,
      getUser (handler attrs now users profiles).1 eu.user_id = some u ∧
      eu.user_id ∈ u.cognito_user_ids.getD [] ∧
      (pcDerive attrs).user_id ∈ u.cognito_user_ids.getD [] ∧
      u.created_at = some t ∧
      getUser (handler attrs now users profiles).1 (pcDerive attrs).user_id
        = getUser users (pcDerive attrs).user_id := by
  obtain ⟨hid, hids, hcr⟩ := pcUserItem_linked_fields (pcDerive attrs) now eu hne
  have hput := getUser_putUser users (pcUserItem (pcDerive attrs) now (some eu))
  rw [hid] at hput
  have husers := handler_users attrs now users profiles hemail
  rw [hfind] at husers
  refine ⟨pcUserItem (pcDerive attrs) now (some eu), ?_, ?_, ?_, ?_, ?_⟩
  · rw [husers]; exact hput
  · rw [hids]; exact orig_mem_linkIds eu _
  · rw [hids]; exact uid_mem_linkIds eu _
  · rw [hcr, hcreated]; rfl
  · rw [husers]
    exact getUser_putUser_ne users _ _ (by rw [hid]; exact fun hh => hne hh.symm)

/-- C7 witness: linking a concrete second identity. -/
theorem c7_witness :
    ∃ u : UserRecord,
      getUser (handler attrsThirdC6 "t1" [uLinkedC6] []).1 "A" = some u ∧
      "A" ∈ u.cognito_user_ids.getD [] ∧
      "C" ∈ u.cognito_user_ids.getD [] ∧
      u.created_at = some "t0" ∧
      getUser (handler attrsThirdC6 "t1" [uLinkedC6] []).1 "C" = getUser [uLinkedC6] "C" :=
  c7_account_linking attrsThirdC6 "t1" [uLinkedC6] [] uLinkedC6 "t0"
    (by decide) (by decide) (by decide) (by decide)

end PostConfirmation

namespace Profiles

/-- A storage capability that mints a distinct fresh URL for every key. -/
def presignFreshC8 : String → Option String := fun k => some ("https://fresh.example/" ++ k)

/-- A stored profile whose persisted `resume_url` is a previously derived
(presigned, hence expiring) URL next to its storage key. -/
def pStaleC8 : StoredProfile :=
  { username := "carol", user_id := "C", resume_key := some "k1",
    resume_url := some "https://b.s3.amazonaws.com/k1?X-Amz-Signature=OLD" }

/-- C8 counterexample: on a read, `get_public_profile` returns the persisted
previously derived URL unchanged — because it already carries an
`X-Amz-Signature` marker it is trusted as is — even though the storage
capability would mint a fresh URL for the known key, contradicting the claim
that every read freshly derives the returned resume URL. -/
theorem c8_counterexample :
    respPublicResumeUrl
        (get_public_profile presignFreshC8 "b" none true [pStaleC8] [] "carol" none)
      = some "https://b.s3.amazonaws.com/k1?X-Amz-Signature=OLD" ∧
    presignFreshC8 "k1" = some "https://fresh.example/k1" := by
  constructor
  · decide
  · decide

/-- C8 (amended): the upsert write path does freshly derive the stored and
returned resume URL from the known storage key via the capability whenever no
non-blank URL is submitted; and the read path derives freshly only when no URL
is persisted at all (a persisted previously derived URL is returned as is, see
the counterexample). -/
theorem c8_resume_url_freshness
    (presign : String → Option String) (bucket : String) (body : Body)
    (now uid un : String) (existingOpt : Option StoredProfile) (k u : String)
    (hblank : pyStrip (pyStr body.resume_url) = "")
    (hk : (if pyStr body.resume_key != "" then pyStr body.resume_key
           else pyStr (existingOpt.getD { username := "", user_id := "" }).resume_key) = k)
    (hkne : k ≠ "") (hbucket : bucket ≠ "") (hpres : presign k = some u) :
    (mergeProfileItem presign bucket body now uid un existingOpt).resume_url = some u ∧
    (∀ p : StoredProfile, pyStr p.resume_url = "" → pyStr p.resumeUrl = "" →
      pyStr p.resume_key = k → get_resume_url presign bucket p = u) := by
  constructor
  · simp only [mergeProfileItem]
    rw [hk]
    simp [hblank, get_resume_url_from_key, hkne, hbucket, hpres]
  · intro p h1 h2 h3
    unfold get_resume_url
    simp [pyOrS, h1, h2, h3, hkne, get_resume_url_from_key, hbucket, hpres]

/-- C8 witness: a concrete upsert and a concrete read both derive the URL the
capability mints for key `k9`. -/
theorem c8_witness :
    (mergeProfileItem presignFreshC8 "b"
        { username := some "dana", resume_key := some "k9" } "t1" "D" "dana" none).resume_url
      = some "https://fresh.example/k9" ∧
    (∀ p : StoredProfile, pyStr p.resume_url = "" → pyStr p.resumeUrl = "" →
      pyStr p.resume_key = "k9" →
      get_resume_url presignFreshC8 "b" p = "https://fresh.example/k9") :=
  c8_resume_url_freshness presignFreshC8 "b"
    { username := some "dana", resume_key := some "k9" } "t1" "D" "dana" none
    "k9" "https://fresh.example/k9" (by decide) (by decide) (by decide) (by decide) rfl

/-- C9 counterexample: a failing lookup in the username availability check is
echoed verbatim — the 500 body carries the store error detail in `message`,
contradicting the claim that internal detail is never returned to the caller. -/
theorem c9_counterexample :
    check_username_availability (some "AccessDeniedException: user is not authorized") []
        (some "validname")
      = ⟨500, .err "Database error"
          (some "AccessDeniedException: user is not authorized")⟩ := by
  decide

/-- C9 (amended): on a backing-store failure, the profile upsert (at each of
its four store calls), the public projection and the current-user snapshot all
answer 500 with a fixed generic body independent of the error detail `d`; the
username availability check instead answers 500 with the error detail echoed in
its message. -/
theorem c9_storage_error_responses
    (d : String) (presign : String → Option String) (bucket : String)
    (req : UpsertReq) (users : List UserRecord) (profiles : List StoredProfile)
    (links : List Link) (linksOk : Bool) (hndl un a : String) (r : Option String)
    (hauth : req.userId = some a) (ha : a ≠ "")
    (hun : req.body.username = some hndl) (hh : hndl ≠ "")
    (hnoconf : ∀ e, getProfile profiles hndl = some e → e.user_id = a)
    (hfmt : isHandleFormat (pyLower (pyStrip un)) = true) :
    create_or_update_profile presign bucket { profilesGet1 := some d } req users profiles
      = (⟨500, .err "Internal server error"
            (some "An error occurred processing your request")⟩, users, profiles) ∧
    create_or_update_profile presign bucket { usersOp := some d } req users profiles
      = (⟨500, .err "Internal server error"
            (some "An error occurred processing your request")⟩, users, profiles) ∧
    (create_or_update_profile presign bucket { profilesGet2 := some d } req users profiles).1
      = ⟨500, .err "Internal server error"
          (some "An error occurred processing your request")⟩ ∧
    (create_or_update_profile presign bucket { profilesPut := some d } req users profiles).1
      = ⟨500, .err "Internal server error"
          (some "An error occurred saving your profile")⟩ ∧
    get_public_profile presign bucket (some d) linksOk profiles links hndl r
      = ⟨500, .err "Internal server error"
          (some "An error occurred retrieving the profile")⟩ ∧
    get_current_user_profile (some d) users (some a)
      = ⟨500, .err "Internal server error"
          (some "An error occurred retrieving your profile")⟩ ∧
    check_username_availability (some d) profiles (some un)
      = ⟨500, .err "Database error" (some d)⟩ := by
  have hunne : pyLower (pyStrip un) ≠ "" := by
    intro hempty
    rw [hempty] at hfmt
    exact absurd hfmt (by decide)
  refine ⟨?_, ?_, ?_, ?_, ?_, ?_, ?_⟩
  · unfold create_or_update_profile
    simp [pyStr, hauth, hun, ha, hh]
  · unfold create_or_update_profile
    cases hgp : getProfile profiles hndl with
    | none => simp [pyStr, hauth, hun, ha, hh, hgp]
    | some e => simp [pyStr, hauth, hun, ha, hh, hgp, hnoconf e hgp]
  · unfold create_or_update_profile
    cases hgp : getProfile profiles hndl with
    | none => simp [pyStr, hauth, hun, ha, hh, hgp]
    | some e => simp [pyStr, hauth, hun, ha, hh, hgp, hnoconf e hgp]
  · unfold create_or_update_profile
    cases hgp : getProfile profiles hndl with
    | none => simp [pyStr, hauth, hun, ha, hh, hgp]
    | some e => simp [pyStr, hauth, hun, ha, hh, hgp, hnoconf e hgp]
  · unfold get_public_profile
    rfl
  · unfold get_current_user_profile
    simp [pyStr, ha]
  · unfold check_username_availability
    simp [pyStr, hunne, hfmt]

/-- C9 witness: the seven store-failure responses at concrete inputs. -/
theorem c9_witness :
    create_or_update_profile (fun _ => none) "" { profilesGet1 := some "boom detail" }
        { userId := some "A", body := { username := some "alice" }, now := "t1" } [] []
      = (⟨500, .err "Internal server error"
            (some "An error occurred processing your request")⟩, [], []) ∧
    create_or_update_profile (fun _ => none) "" { usersOp := some "boom detail" }
        { userId := some "A", body := { username := some "alice" }, now := "t1" } [] []
      = (⟨500, .err "Internal server error"
            (some "An error occurred processing your request")⟩, [], []) ∧
    (create_or_update_profile (fun _ => none) "" { profilesGet2 := some "boom detail" }
        { userId := some "A", body := { username := some "alice" }, now := "t1" } [] []).1
      = ⟨500, .err "Internal server error"
          (some "An error occurred processing your request")⟩ ∧
    (create_or_update_profile (fun _ => none) "" { profilesPut := some "boom detail" }
        { userId := some "A", body := { username := some "alice" }, now := "t1" } [] []).1
      = ⟨500, .err "Internal server error"
          (some "An error occurred saving your profile")⟩ ∧
    get_public_profile (fun _ => none) "" (some "boom detail") true [] [] "alice" none
      = ⟨500, .err "Internal server error"
          (some "An error occurred retrieving the profile")⟩ ∧
    get_current_user_profile (some "boom detail") [] (some "A")
      = ⟨500, .err "Internal server error"
          (some "An error occurred retrieving your profile")⟩ ∧
    check_username_availability (some "boom detail") [] (some "goodname")
      = ⟨500, .err "Database error" (some "boom detail")⟩ :=
  c9_storage_error_responses "boom detail" (fun _ => none) ""
    { userId := some "A", body := { username := some "alice" }, now := "t1" } [] [] [] true
    "alice" "goodname" "A" none rfl (by decide) rfl (by decide)
    (fun e h => by simp [getProfile] at h) (by decide)

end Profiles

namespace Links

/-- C10: deleting a link id that is not stored under the callers account — in
particular one that exists only under a different account — answers 404 and
leaves the links table unchanged: the lookup and the soft-delete update are
keyed by the callers account id, so foreign links are neither detectable nor
deletable. -/
theorem c10_foreign_link_delete_404
    (links : List Link) (a lid now : String)
    (ha : a ≠ "") (hlid : lid ≠ "") (hlen : lid.length ≤ 100)
    (hmine : findLink links a lid = none)
    (hforeign : ∃ l ∈ links, l.link_id = lid ∧ l.user_id ≠ a) :
    delete_link links (some a) lid now =
      (⟨404, .err "Not found" (some "Link not found")⟩, links) := by
  have hlen2 : ¬ (lid.length > 100) := by omega
  unfold delete_link
  simp [pyStr, ha, hlid, hlen2, hmine]

/-- C10 witness: account `A` asking to delete a link held by account `B`. -/
theorem c10_witness :
    delete_link [{ user_id := "B", link_id := "L1", title := "t", url := "u" }]
        (some "A") "L1" "t1" =
      (⟨404, .err "Not found" (some "Link not found")⟩,
        [{ user_id := "B", link_id := "L1", title := "t", url := "u" }]) :=
  c10_foreign_link_delete_404 [{ user_id := "B", link_id := "L1", title := "t", url := "u" }]
    "A" "L1" "t1" (by decide) (by decide) (by decide) (by decide) (by decide)

end Links
